import Mathlib

/-!
Verification development for the arista media discoverer
(src/arista/discoverer.py).

The discoverer is an event-driven object: a GStreamer pipeline whose
callbacks mutate per-session fields and finally emit a single boolean
"discovered" signal.  We embed the object state as a structure and each
callback of the source as a state-transition function.  Graph-runtime
effects (signal watch on the bus, the armed timeout source, idle-scheduled
stop callbacks, emitted signals, pipeline state) are tracked as explicit
fields so that the event dispatch can be modelled faithfully: bus messages
are only delivered while the signal watch is attached, the timeout only
fires while armed, while pad-level signals (pad-added, unknown-type,
notify::caps) are never disconnected and hence always delivered.
-/

namespace Arista

/-- Nanoseconds per second, mirroring gst.SECOND. -/
def SECOND : Int := 1000000000

/-- Python int() applied to a rational value: truncation toward zero,
which for a reduced fraction is T-division of numerator by denominator. -/
def pyInt (q : Rat) : Int := Int.tdiv q.num (q.den : Int)

/-- Boolean substring test mirroring the Python expression (needle in hay)
on the caps string. -/
def hasSub (needle : List Char) : List Char → Bool
  | [] => needle.isEmpty
  | h :: t => needle.isPrefixOf (h :: t) || hasSub needle t

/-- The substring looked for by the audio classification branches. -/
def audioTok : List Char := "audio".toList

/-- The substring looked for by the video classification branches. -/
def videoTok : List Char := "video".toList

/-- The substring looked for by the float sample-format test. -/
def floatTok : List Char := "x-raw-float".toList

/-- A negotiated capability descriptor: its raw string form together with
the structure fields that the source callback reads out of caps[0]. -/
structure Caps where
  s : List Char
  rate : Int
  width : Int
  channels : Int
  depth : Int
  height : Int
  framerate : Int × Int
  deriving DecidableEq

/-- Pipeline state, as far as the discoverer drives it. -/
inductive PState where
  | null
  | ready
  | playing
  deriving DecidableEq

/-- The buffering stage (a GStreamer queue element) inserted in front of
the discard sink for each recognized audio or video endpoint, together
with the one-shot overrun guard.  The overrun_armed flag models the
self-disconnecting overrun subscription as explicit state. -/
structure Queue where
  min_threshold_time : Int
  max_size_time : Int
  max_size_bytes : Int
  max_size_buffers : Int
  overrun_armed : Bool
  deriving DecidableEq

/-- The queue configuration performed by _new_decoded_pad_cb for a
recognized endpoint, with max_interleave in seconds (a rational standing
for the Python int-or-float parameter). -/
def mkQueue (mi : Rat) : Queue :=
  { min_threshold_time := pyInt (mi * (SECOND : Rat))
    max_size_time := pyInt (2 * mi * (SECOND : Rat))
    max_size_bytes := 0
    max_size_buffers := pyInt (100 * mi)
    overrun_armed := true }

/-- The overrun callback _disable_min_threshold_cb: on the first overrun
the minimum threshold is zeroed and the subscription removed; once
disarmed, further overruns are not delivered and change nothing. -/
def overrun_cb (q : Queue) : Queue :=
  if q.overrun_armed then
    { q with min_threshold_time := 0, overrun_armed := false }
  else q

/-- The full per-session state of the Discoverer object, plus the
explicit effect bookkeeping described in the module header. -/
structure Discoverer where
  mimetype : Option (List Char)
  audiocaps : Option Caps
  videocaps : Option Caps
  videowidth : Int
  videoheight : Int
  videorate : Int × Int
  audiofloat : Bool
  audiorate : Int
  audiodepth : Int
  audiowidth : Int
  audiochannels : Int
  audiolength : Int
  videolength : Int
  is_video : Bool
  is_audio : Bool
  otherstreams : List (List Char)
  finished : Bool
  sinknumber : Int
  tags : List (List Char × List Char)
  success : Bool
  nomorepads : Bool
  timeoutArmed : Bool
  busWatch : Bool
  idleStops : Nat
  emitted : List Bool
  pipeline : PState
  max_interleave : Rat
  queues : List Queue
  deriving DecidableEq

/-- The state of a freshly constructed Discoverer (the field resets done
in __init__), for a given max_interleave. -/
def init (mi : Rat) : Discoverer :=
  { mimetype := none
    audiocaps := none
    videocaps := none
    videowidth := 0
    videoheight := 0
    videorate := (0, 1)
    audiofloat := false
    audiorate := 0
    audiodepth := 0
    audiowidth := 0
    audiochannels := 0
    audiolength := 0
    videolength := 0
    is_video := false
    is_audio := false
    otherstreams := []
    finished := false
    sinknumber := 0
    tags := []
    success := false
    nomorepads := false
    timeoutArmed := false
    busWatch := false
    idleStops := 0
    emitted := []
    pipeline := PState.null
    max_interleave := mi
    queues := [] }

/-- The source property Discoverer.length: the overall duration exposed
to the caller. -/
def length (s : Discoverer) : Int := max s.videolength s.audiolength

/-- The _finished method: record the outcome, detach the bus signal
watch, cancel the timeout source if still pending, and schedule _stop on
the next idle turn of the run loop. -/
def finish (s : Discoverer) (b : Bool) : Discoverer :=
  { s with success := b
           busWatch := false
           timeoutArmed := false
           idleStops := s.idleStops + 1 }

/-- The _stop method, run from the idle queue: mark the session finished,
drop the pipeline to READY and emit the "discovered" signal with the
recorded outcome. -/
def stop (s : Discoverer) : Discoverer :=
  { s with finished := true
           pipeline := PState.ready
           emitted := s.emitted ++ [s.success] }

/-- The _timed_out_or_eos method: the completion evaluation shared by the
EOS branch of the bus handler and the timeout source. -/
def timed_out_or_eos (s : Discoverer) : Discoverer :=
  if (!s.is_audio && !s.is_video) ||
     (s.is_audio && !s.audiocaps.isSome) ||
     (s.is_video && !s.videocaps.isSome) then
    finish s false
  else
    finish s true

/-- The success criterion in the words of the specification: at least one
of audio or video was recognized, and every recognized kind also has a
recorded negotiated capability.  Stated from the spec, to be compared
with the condition the source tests. -/
def specSuccessCriterion (s : Discoverer) : Bool :=
  (s.is_audio || s.is_video) &&
  (!s.is_audio || s.audiocaps.isSome) &&
  (!s.is_video || s.videocaps.isSome)

/-- Bus messages the handler inspects: EOS, ERROR and TAG. -/
inductive BusMsg where
  | eos
  | err
  | tag (kvs : List (List Char × List Char))
  deriving DecidableEq

/-- Store one tag key/value pair, dictionary style: replace the value of
an existing key, otherwise append the new binding. -/
def setTag (t : List (List Char × List Char)) (kv : List Char × List Char) :
    List (List Char × List Char) :=
  if t.any (fun p => p.1 == kv.1) then
    t.map (fun p => if p.1 == kv.1 then kv else p)
  else t ++ [kv]

/-- The _bus_message_cb handler. -/
def bus_message_cb (s : Discoverer) : BusMsg → Discoverer
  | BusMsg.eos => timed_out_or_eos s
  | BusMsg.tag kvs => { s with tags := kvs.foldl setTag s.tags }
  | BusMsg.err => finish s false

/-- The discover method.  startOk stands for the boolean returned by
set_state(PLAYING).  On an already-finished session the "discovered"
signal is emitted synchronously with False and nothing else happens;
otherwise the bus watch is attached, the 3 s timeout armed, and the
pipeline started (falling back to _finished() when the start fails). -/
def discover (s : Discoverer) (startOk : Bool) : Discoverer :=
  if s.finished then
    { s with emitted := s.emitted ++ [false] }
  else
    let s1 := { s with busWatch := true, timeoutArmed := true }
    if startOk then { s1 with pipeline := PState.playing } else finish s1 false

/-- The _no_more_pads_cb handler. -/
def no_more_pads_cb (s : Discoverer) : Discoverer :=
  { s with nomorepads := true }

/-- The _unknown_type_cb handler: always record the raw caps string in
otherstreams; if no audio and no video endpoint was recognized yet, set
the finished flag and finish with the default failure outcome. -/
def unknown_type_cb (s : Discoverer) (cs : List Char) : Discoverer :=
  let s1 := { s with otherstreams := s.otherstreams ++ [cs] }
  if !s1.is_video && !s1.is_audio then
    finish { s1 with finished := true } false
  else s1

/-- The _have_type_cb handler. -/
def have_type_cb (s : Discoverer) (cs : List Char) : Discoverer :=
  { s with mimetype := some cs }

/-- The _notify_caps_cb handler.  c is the result of
get_negotiated_caps() (none when not yet fixed, in which case the
handler returns untouched); dur is the duration query answer on the peer
(none when the query failed, recorded as the sentinel -1). -/
def notify_caps_cb (s : Discoverer) (c : Option Caps) (dur : Option Int) :
    Discoverer :=
  match c with
  | none => s
  | some caps =>
    let len : Int :=
      match dur with
      | some l => l
      | none => -1
    if hasSub audioTok caps.s then
      let s1 := { s with audiocaps := some caps
                         audiolength := len
                         audiorate := caps.rate
                         audiowidth := caps.width
                         audiochannels := caps.channels }
      let s2 :=
        if hasSub floatTok caps.s then { s1 with audiofloat := true }
        else { s1 with audiodepth := caps.depth }
      if s2.nomorepads && (!s2.is_video || s2.videocaps.isSome) then
        finish s2 true
      else s2
    else if hasSub videoTok caps.s then
      let s1 := { s with videocaps := some caps
                         videolength := len
                         videowidth := caps.width
                         videoheight := caps.height
                         videorate := caps.framerate }
      if s1.nomorepads && (!s1.is_audio || s1.audiocaps.isSome) then
        finish s1 true
      else s1
    else s

/-- The element and sink bookkeeping done by _new_decoded_pad_cb for a
recognized endpoint: bump the sink counter and append the configured
buffering queue. -/
def addSink (s : Discoverer) : Discoverer :=
  { s with sinknumber := s.sinknumber + 1
           queues := s.queues ++ [mkQueue s.max_interleave] }

/-- The _new_decoded_pad_cb handler: classify the pad caps string by
substring (audio first, then video); on a match set the recognition flag
and insert the queue and fakesink; otherwise return without recording
anything. -/
def new_decoded_pad_cb (s : Discoverer) (cs : List Char) : Discoverer :=
  if hasSub audioTok cs then
    addSink { s with is_audio := true }
  else if hasSub videoTok cs then
    addSink { s with is_video := true }
  else s

/-- The events a running session can receive from the graph runtime and
the run loop. -/
inductive Ev where
  | busMsg (m : BusMsg)
  | timeout
  | padAdded (cs : List Char)
  | noMorePads
  | unknownType (cs : List Char)
  | haveType (cs : List Char)
  | notifyCaps (c : Option Caps) (dur : Option Int)
  | idle
  deriving DecidableEq

/-- Event dispatch.  Bus messages reach the handler only while the
signal watch is attached; the timeout source fires only while armed;
pad-level signals are never disconnected and are always dispatched; an
idle turn runs one pending _stop callback if any. -/
def step (s : Discoverer) : Ev → Discoverer
  | Ev.busMsg m => if s.busWatch then bus_message_cb s m else s
  | Ev.timeout => if s.timeoutArmed then timed_out_or_eos s else s
  | Ev.padAdded cs => new_decoded_pad_cb s cs
  | Ev.noMorePads => no_more_pads_cb s
  | Ev.unknownType cs => unknown_type_cb s cs
  | Ev.haveType cs => have_type_cb s cs
  | Ev.notifyCaps c dur => notify_caps_cb s c dur
  | Ev.idle =>
    if s.idleStops > 0 then stop { s with idleStops := s.idleStops - 1 } else s

/-- Run a list of events from a state. -/
def run (s : Discoverer) (evs : List Ev) : Discoverer := evs.foldl step s

/-- A concrete audio caps string. -/
def aStr : List Char := "audio/x-raw-int".toList

/-- A concrete video caps string. -/
def vStr : List Char := "video/x-raw-yuv".toList

/-- A concrete caps string containing both the audio and the video
substring. -/
def bothStr : List Char := "audio/x-with-video".toList

/-- A concrete caps string containing neither substring. -/
def tpStr : List Char := "text/plain".toList

/-- A concrete negotiated audio caps value. -/
def aCaps : Caps :=
  { s := aStr, rate := 48000, width := 16, channels := 2, depth := 16,
    height := 0, framerate := (0, 1) }

/-- A concrete negotiated video caps value. -/
def vCaps : Caps :=
  { s := vStr, rate := 0, width := 1920, channels := 0, depth := 0,
    height := 1080, framerate := (30000, 1001) }

/-- A concrete caps value whose string holds both substrings. -/
def abCaps : Caps :=
  { s := bothStr, rate := 44100, width := 16, channels := 2, depth := 16,
    height := 480, framerate := (25, 1) }

/-- A session trace: an audio pad appears, the pad set closes, its caps
negotiate twice, with an idle turn after each negotiation. -/
def c2trace : List Ev :=
  [Ev.padAdded aStr, Ev.noMorePads,
   Ev.notifyCaps (some aCaps) (some 5), Ev.idle,
   Ev.notifyCaps (some aCaps) (some 7), Ev.idle]

/-- A session trace: an audio pad appears, negotiates with the given
duration query answer, then EOS arrives and the idle turn runs. -/
def c7evs (d : Option Int) : List Ev :=
  [Ev.padAdded aStr, Ev.notifyCaps (some aCaps) d,
   Ev.busMsg BusMsg.eos, Ev.idle]

/-- A session state with the bus watch attached and the timeout armed. -/
def sRun : Discoverer := discover (init 1) true

/-- A session state whose finished flag is already set. -/
def sFin : Discoverer := { init 1 with finished := true }

/-- Helper: the fields written and the fields left alone by an audio
capability negotiation. -/
theorem notify_audio_fields (s : Discoverer) (c : Caps) (d : Option Int)
    (ha : hasSub audioTok c.s = true) :
    (notify_caps_cb s (some c) d).audiocaps = some c
    ∧ (notify_caps_cb s (some c) d).audiolength = d.getD (-1)
    ∧ (notify_caps_cb s (some c) d).videocaps = s.videocaps
    ∧ (notify_caps_cb s (some c) d).videolength = s.videolength
    ∧ (notify_caps_cb s (some c) d).is_audio = s.is_audio
    ∧ (notify_caps_cb s (some c) d).is_video = s.is_video := by
  cases d <;>
    · simp only [notify_caps_cb, ha, if_true]
      split <;> split <;> simp_all [finish]

/-- Helper: the fields written and the fields left alone by a video
capability negotiation. -/
theorem notify_video_fields (s : Discoverer) (c : Caps) (d : Option Int)
    (hna : hasSub audioTok c.s = false) (hv : hasSub videoTok c.s = true) :
    (notify_caps_cb s (some c) d).videocaps = some c
    ∧ (notify_caps_cb s (some c) d).videolength = d.getD (-1)
    ∧ (notify_caps_cb s (some c) d).audiocaps = s.audiocaps
    ∧ (notify_caps_cb s (some c) d).audiolength = s.audiolength := by
  cases d <;>
    · simp only [notify_caps_cb, hna, hv, if_true, Bool.false_eq_true,
        if_false]
      split <;> simp_all [finish]

/-- Helper: pyInt agrees with the floor on nonnegative rationals. -/
theorem pyInt_eq_floor (q : Rat) (hq : 0 ≤ q) : pyInt q = ⌊q⌋ := by
  rw [Rat.floor_def]
  exact Int.tdiv_eq_ediv (Rat.num_nonneg.mpr hq) (Int.ofNat_nonneg _)

/-- C1: the completion evaluation at EOS or timeout finishes with
success exactly when the spec criterion holds — at least one of audio or
video recognized and every recognized kind has a recorded capability —
and with failure in every other case. -/
theorem c1_outcome_matches_spec (s : Discoverer) :
    timed_out_or_eos s = finish s (specSuccessCriterion s) := by
  cases hA : s.is_audio <;> cases hV : s.is_video <;>
    cases hAC : s.audiocaps <;> cases hVC : s.videocaps <;>
      simp [timed_out_or_eos, specSuccessCriterion, hA, hV, hAC, hVC]

/-- C2 counterexample: on the c2trace session a second capabilities
negotiation arrives after the decider reached its terminal state, is
processed, and a second "discovered" notification is emitted, so the
at-most-one-notification claim is false on this concrete run. -/
theorem c2_cex :
    ¬ ((run (discover (init 1) true) c2trace).emitted.length ≤ 1) := by
  decide

/-- C2 amended: finishing always detaches the bus watch and cancels the
timeout, so bus messages and timer events after a terminal transition
are ignored; but pad-level signals stay connected: on the concrete
c2trace run a post-terminal capabilities negotiation is still processed
and a second "discovered" notification is emitted. -/
theorem c2_amended :
    (∀ (s : Discoverer) (b : Bool),
        (finish s b).busWatch = false ∧ (finish s b).timeoutArmed = false)
    ∧ (∀ (s : Discoverer) (m : BusMsg), s.busWatch = false →
        step s (Ev.busMsg m) = s)
    ∧ (∀ (s : Discoverer), s.timeoutArmed = false → step s Ev.timeout = s)
    ∧ (run (discover (init 1) true) c2trace).emitted = [true, true] := by
  refine ⟨fun s b => ⟨rfl, rfl⟩, fun s m h => ?_, fun s h => ?_, by decide⟩
  · simp [step, h]
  · simp [step, h]

/-- C2 witness: a bus message delivered while the watch is detached
leaves the state unchanged. -/
theorem c2_witness : step (init 1) (Ev.busMsg BusMsg.eos) = init 1 :=
  c2_amended.2.1 (init 1) BusMsg.eos rfl

/-- C3 counterexample: a second audio negotiation with a different
duration query answer changes the already-recorded audio duration, so
the first-negotiation-is-final claim is false on this concrete pair of
events. -/
theorem c3_cex :
    (notify_caps_cb (notify_caps_cb (init 1) (some aCaps) (some 5))
        (some aCaps) (some 7)).audiolength
      ≠ (notify_caps_cb (init 1) (some aCaps) (some 5)).audiolength := by
  decide

/-- C3 amended: a capability negotiation for a kind overwrites that
kind's recorded capability and duration with the values of the latest
event, regardless of what was recorded before (last negotiation wins,
not first). -/
theorem c3_amended (s t : Discoverer) (c c2 : Caps) (d d2 : Option Int)
    (ha : hasSub audioTok c.s = true)
    (hna : hasSub audioTok c2.s = false)
    (hv : hasSub videoTok c2.s = true) :
    ((notify_caps_cb s (some c) d).audiocaps = some c
      ∧ (notify_caps_cb s (some c) d).audiolength = d.getD (-1))
    ∧ ((notify_caps_cb t (some c2) d2).videocaps = some c2
      ∧ (notify_caps_cb t (some c2) d2).videolength = d2.getD (-1)) :=
  ⟨⟨(notify_audio_fields s c d ha).1, (notify_audio_fields s c d ha).2.1⟩,
   ⟨(notify_video_fields t c2 d2 hna hv).1,
    (notify_video_fields t c2 d2 hna hv).2.1⟩⟩

/-- C3 witness: a second audio negotiation records the second duration. -/
theorem c3_witness :
    (notify_caps_cb (notify_caps_cb (init 1) (some aCaps) (some 5))
        (some aCaps) (some 7)).audiolength = (some (7:Int)).getD (-1) :=
  (c3_amended (notify_caps_cb (init 1) (some aCaps) (some 5)) (init 1)
    aCaps vCaps (some 7) none (by decide) (by decide) (by decide)).1.2

/-- C4 counterexample: a decoded pad whose caps string holds neither the
audio nor the video substring is dropped without any effect: nothing is
appended to otherstreams and no failure completion is triggered, even
though nothing was recognized yet, so the claim is false on this
concrete input. -/
theorem c4_cex :
    (new_decoded_pad_cb (init 1) tpStr).otherstreams ≠ [tpStr]
    ∧ new_decoded_pad_cb (init 1) tpStr = init 1 := by
  constructor
  · decide
  · decide

/-- C4 amended: a stream reported through the unknown-type signal has
its raw descriptor appended to otherstreams and completes the session
with failure exactly when no audio and no video endpoint was recognized
yet, otherwise the session continues; a decoded pad whose caps classify
as neither audio nor video, however, is ignored entirely: nothing is
recorded and the session state is unchanged. -/
theorem c4_amended (s : Discoverer) (cs : List Char)
    (hA : hasSub audioTok cs = false) (hV : hasSub videoTok cs = false) :
    (unknown_type_cb s cs).otherstreams = s.otherstreams ++ [cs]
    ∧ (s.is_audio = false → s.is_video = false →
        (unknown_type_cb s cs).success = false
        ∧ (unknown_type_cb s cs).finished = true
        ∧ (unknown_type_cb s cs).idleStops = s.idleStops + 1)
    ∧ (s.is_audio = true ∨ s.is_video = true →
        unknown_type_cb s cs = { s with otherstreams := s.otherstreams ++ [cs] })
    ∧ new_decoded_pad_cb s cs = s := by
  refine ⟨?_, ?_, ?_, ?_⟩
  · cases hA2 : s.is_audio <;> cases hV2 : s.is_video <;>
      simp [unknown_type_cb, finish, hA2, hV2]
  · intro hA2 hV2
    simp [unknown_type_cb, finish, hA2, hV2]
  · intro h2
    rcases h2 with h2 | h2 <;> simp [unknown_type_cb, finish, h2]
  · simp [new_decoded_pad_cb, hA, hV]

/-- C4 witness: an unknown-type stream seen before anything was
recognized records its descriptor. -/
theorem c4_witness :
    (unknown_type_cb (init 1) tpStr).otherstreams
      = (init 1).otherstreams ++ [tpStr] :=
  (c4_amended (init 1) tpStr (by decide) (by decide)).1

/-- C5: while the session is running (bus watch attached, timeout
armed), delivering EOS and firing the timeout perform the identical
completion evaluation and the identical terminal transition. -/
theorem c5_eos_eq_timeout (s : Discoverer)
    (hw : s.busWatch = true) (ht : s.timeoutArmed = true) :
    step s (Ev.busMsg BusMsg.eos) = step s Ev.timeout := by
  simp [step, hw, ht, bus_message_cb]

/-- C5 witness: on the started session sRun, EOS and timeout coincide. -/
theorem c5_witness :
    step sRun (Ev.busMsg BusMsg.eos) = step sRun Ev.timeout :=
  c5_eos_eq_timeout sRun (by decide) (by decide)

/-- C6: invoking discovery on a session whose finished flag is set
appends exactly one failure notification synchronously and changes
nothing else: no bus watch, no timeout, no pipeline state change. -/
theorem c6_refire (s : Discoverer) (ok : Bool) (h : s.finished = true) :
    discover s ok = { s with emitted := s.emitted ++ [false] } := by
  simp [discover, h]

/-- C6 witness: re-invoking discovery on the finished session sFin. -/
theorem c6_witness :
    discover sFin true = { sFin with emitted := sFin.emitted ++ [false] } :=
  c6_refire sFin true rfl

/-- C7 counterexample: a session in which only audio is recognized and
negotiated, with a failed duration query, reaches EOS with success, yet
the exposed overall duration is not the audio duration: the claim that
the overall duration then equals the audio duration is false on this
concrete run. -/
theorem c7_cex :
    (run (discover (init 1) true) (c7evs none)).emitted = [true]
    ∧ (run (discover (init 1) true) (c7evs none)).is_audio = true
    ∧ (run (discover (init 1) true) (c7evs none)).is_video = false
    ∧ (run (discover (init 1) true) (c7evs none)).audiolength = -1
    ∧ length (run (discover (init 1) true) (c7evs none))
        ≠ (run (discover (init 1) true) (c7evs none)).audiolength := by
  decide

/-- C7 amended: the exposed overall duration is the maximum of the
recorded video and audio durations; when only audio was recognized and
negotiated and its recorded duration is nonnegative, the overall
duration equals the audio duration (for the unknown sentinel -1 it is
masked to 0 by the absent kind's default). -/
theorem c7_amended (d : Int) (hd : 0 ≤ d) :
    (run (discover (init 1) true) (c7evs (some d))).emitted = [true]
    ∧ length (run (discover (init 1) true) (c7evs (some d)))
        = max (run (discover (init 1) true) (c7evs (some d))).videolength
            (run (discover (init 1) true) (c7evs (some d))).audiolength
    ∧ length (run (discover (init 1) true) (c7evs (some d))) = d := by
  refine ⟨rfl, rfl, ?_⟩
  have h1 : length (run (discover (init 1) true) (c7evs (some d)))
      = max 0 d := rfl
  rw [h1]
  exact max_eq_right hd

/-- C7 witness: the amended statement at duration 5. -/
theorem c7_witness :
    length (run (discover (init 1) true) (c7evs (some 5))) = 5 :=
  (c7_amended 5 (by decide)).2.2

/-- C8 counterexample: with a configured tolerance of one third of a
second, the buffering stage minimum threshold is 333333333 ns, strictly
below the tolerance, so the at-least-the-tolerance claim is false at
this concrete configuration. -/
theorem c8_cex :
    ¬ ((1/3) * (SECOND : Rat)
        ≤ ((mkQueue ((1:Rat)/3)).min_threshold_time : Rat)) := by
  have hq : (0:Rat) ≤ (1/3) * (SECOND : Rat) := by norm_num [SECOND]
  have h1 : (mkQueue ((1:Rat)/3)).min_threshold_time
      = ⌊((1:Rat)/3) * (SECOND : Rat)⌋ := pyInt_eq_floor _ hq
  rw [not_le, h1]
  have h2 : ⌊((1:Rat)/3) * (SECOND : Rat)⌋ = 333333333 := by
    norm_num [SECOND]
  rw [h2]
  norm_num [SECOND]

/-- C8 amended: for every recognized audio or video endpoint the
inserted buffering stage is configured with minimum buffered duration
equal to the tolerance truncated to whole nanoseconds — hence within one
nanosecond below the tolerance, and equal to it whenever the tolerance
is a whole number of nanoseconds — maximum buffered duration equal to
twice the tolerance truncated to whole nanoseconds, an unbounded byte
cap, and an element-count cap of one hundred times the tolerance
truncated to an integer; the first overrun zeroes the minimum threshold
and disarms the guard, and a disarmed guard ignores further overruns, so
the disabling happens exactly once per endpoint. -/
theorem c8_amended (s : Discoverer) (cs : List Char)
    (h : hasSub audioTok cs = true ∨ hasSub videoTok cs = true)
    (hmi : 0 ≤ s.max_interleave) :
    (new_decoded_pad_cb s cs).queues = s.queues ++ [mkQueue s.max_interleave]
    ∧ (mkQueue s.max_interleave).min_threshold_time
        = pyInt (s.max_interleave * (SECOND : Rat))
    ∧ ((mkQueue s.max_interleave).min_threshold_time : Rat)
        ≤ s.max_interleave * (SECOND : Rat)
    ∧ s.max_interleave * (SECOND : Rat) - 1
        < ((mkQueue s.max_interleave).min_threshold_time : Rat)
    ∧ (mkQueue s.max_interleave).max_size_time
        = pyInt (2 * s.max_interleave * (SECOND : Rat))
    ∧ (mkQueue s.max_interleave).max_size_bytes = 0
    ∧ (mkQueue s.max_interleave).max_size_buffers
        = pyInt (100 * s.max_interleave)
    ∧ (overrun_cb (mkQueue s.max_interleave)).min_threshold_time = 0
    ∧ (overrun_cb (mkQueue s.max_interleave)).overrun_armed = false
    ∧ (∀ q : Queue, q.overrun_armed = false → overrun_cb q = q) := by
  have hs : (0:Rat) ≤ (SECOND : Rat) := by norm_num [SECOND]
  have hq : 0 ≤ s.max_interleave * (SECOND : Rat) := mul_nonneg hmi hs
  have hfl : pyInt (s.max_interleave * (SECOND : Rat))
      = ⌊s.max_interleave * (SECOND : Rat)⌋ := pyInt_eq_floor _ hq
  refine ⟨?_, rfl, ?_, ?_, rfl, rfl, rfl, ?_, ?_, ?_⟩
  · cases hA : hasSub audioTok cs with
    | true => simp [new_decoded_pad_cb, hA, addSink]
    | false =>
      rcases h with h | h
      · rw [hA] at h; exact absurd h (by decide)
      · simp [new_decoded_pad_cb, hA, h, addSink]
  · show ((pyInt (s.max_interleave * (SECOND : Rat)) : Int) : Rat)
      ≤ s.max_interleave * (SECOND : Rat)
    rw [hfl]
    exact Int.floor_le _
  · show s.max_interleave * (SECOND : Rat) - 1
      < ((pyInt (s.max_interleave * (SECOND : Rat)) : Int) : Rat)
    rw [hfl]
    exact Int.sub_one_lt_floor _
  · simp [overrun_cb, mkQueue]
  · simp [overrun_cb, mkQueue]
  · intro q hq2
    simp [overrun_cb, hq2]

/-- C8 witness: at the default tolerance of one second, the minimum
threshold is within the proved bounds. -/
theorem c8_witness :
    ((mkQueue (init 1).max_interleave).min_threshold_time : Rat)
      ≤ (init 1).max_interleave * (SECOND : Rat) :=
  (c8_amended (init 1) aStr (Or.inl (by decide)) (by norm_num [init])).2.2.1

/-- C9: a capability descriptor containing both the audio and the video
substring is classified as audio, never as video, both when the endpoint
is recognized (pad-added) and when its capabilities are recorded. -/
theorem c9_audio_precedence (s t : Discoverer) (cs : List Char) (c : Caps)
    (d : Option Int)
    (h1 : hasSub audioTok cs = true) (_h2 : hasSub videoTok cs = true)
    (h3 : hasSub audioTok c.s = true) (_h4 : hasSub videoTok c.s = true) :
    (new_decoded_pad_cb s cs).is_audio = true
    ∧ (new_decoded_pad_cb s cs).is_video = s.is_video
    ∧ (notify_caps_cb t (some c) d).audiocaps = some c
    ∧ (notify_caps_cb t (some c) d).videocaps = t.videocaps := by
  refine ⟨?_, ?_, (notify_audio_fields t c d h3).1,
     (notify_audio_fields t c d h3).2.2.1⟩
  · simp [new_decoded_pad_cb, h1, addSink]
  · simp [new_decoded_pad_cb, h1, addSink]

/-- C9 witness: a concrete descriptor holding both substrings is
recognized as audio. -/
theorem c9_witness : (new_decoded_pad_cb (init 1) bothStr).is_audio = true :=
  (c9_audio_precedence (init 1) (init 1) bothStr abCaps (some 3)
    (by decide) (by decide) (by decide) (by decide)).1

/-- C10: when a kind negotiates with a failed duration query (recording
the sentinel -1) while the other kind's duration is still the initial 0,
the exposed overall duration is 0, masking the unknown marker — shown
for audio-only and for video-only sessions. -/
theorem c10_unknown_masked (s t : Discoverer) (c c2 : Caps)
    (ha : hasSub audioTok c.s = true) (hv0 : s.videolength = 0)
    (hna : hasSub audioTok c2.s = false) (hv : hasSub videoTok c2.s = true)
    (ha0 : t.audiolength = 0) :
    ((notify_caps_cb s (some c) none).audiolength = -1
      ∧ length (notify_caps_cb s (some c) none) = 0)
    ∧ ((notify_caps_cb t (some c2) none).videolength = -1
      ∧ length (notify_caps_cb t (some c2) none) = 0) := by
  have hA := notify_audio_fields s c none ha
  have hV := notify_video_fields t c2 none hna hv
  refine ⟨⟨hA.2.1, ?_⟩, ⟨hV.2.1, ?_⟩⟩
  · rw [length, hA.2.1, hA.2.2.2.1, hv0]
    decide
  · rw [length, hV.2.1, hV.2.2.2, ha0]
    decide

/-- C10 witness: a fresh session whose audio negotiation fails its
duration query exposes overall duration 0. -/
theorem c10_witness : length (notify_caps_cb (init 1) (some aCaps) none) = 0 :=
  (c10_unknown_masked (init 1) (init 1) aCaps vCaps (by decide) rfl
    (by decide) (by decide) rfl).1.2

end Arista
